import Mathlib

/- Verification development for the data-traceback repository.

   Shallow embedding of src/main.py: the validation engine
   (validate_data, lines 46-72) and the stage-attribution tracer
   (traceback_data_issues, lines 75-90), together with the pipeline
   predicates registered in main (operations_trace, lines 100-104).

   Cells carry the dynamic per-cell typing of the source data
   (integer, float, string, null); a pandas NaN/None cell is nullV.
   Raised Python exceptions are modelled with Except: the error side
   of validate_data distinguishes the DataQualityError subclasses the
   code defines from the host exceptions (KeyError, TypeError) that
   escape the except DataQualityError handler.  Log calls are modelled
   as a list of structured log entries, and the dataset handed back to
   the caller is the dataOut field, so that non-mutation and purity
   are stated explicitly. -/

inductive Cell where
  | intV (n : Int)
  | floatV (q : Rat)
  | strV (s : String)
  | nullV
deriving DecidableEq

structure Dataset where
  cols : List (String × List Cell)
deriving DecidableEq

def isNullCell : Cell → Bool
  | Cell.nullV => true
  | _ => false

def isIntCell : Cell → Bool
  | Cell.intV _ => true
  | _ => false

def isStrCell : Cell → Bool
  | Cell.strV _ => true
  | _ => false

/-- Pandas elementwise comparison cell < 0 on a non-string cell; a null
cell (NaN) compares false, as NaN < 0 is False. -/
def cellLtZero : Cell → Bool
  | Cell.intV n => decide (n < 0)
  | Cell.floatV q => decide (q < 0)
  | _ => false

/-- data.isnull().values.any() (line 51). -/
def hasAnyNull (d : Dataset) : Bool :=
  d.cols.any fun c => c.2.any isNullCell

/-- Per-column null count, one entry of data.isnull().sum() (line 52). -/
def nullCount (cs : List Cell) : Nat := cs.countP isNullCell

/-- missing_info[missing_info > 0].to_dict() (lines 52-53): the columns
with a positive null count, in column order, with their counts. -/
def missing_info (d : Dataset) : List (String × Nat) :=
  d.cols.filterMap fun c =>
    if 0 < nullCount c.2 then some (c.1, nullCount c.2) else none

/-- The exceptions validate_data can raise: the three DataQualityError
subclasses (lines 21-28), plus the host exceptions KeyError (unguarded
column access) and TypeError (pandas comparison on a string cell). -/
inductive VError where
  | missingDataError (msg : String)
  | dataRangeError (msg : String)
  | dataFormatError (msg : String)
  | keyError (key : String)
  | typeError
deriving DecidableEq

/-- Which exceptions the except DataQualityError handler (line 68)
catches: exactly the three DataQualityError subclasses. -/
def is_data_quality : VError → Bool
  | VError.missingDataError _ => true
  | VError.dataRangeError _ => true
  | VError.dataFormatError _ => true
  | _ => false

/-- The message str(e) of an exception, used by the handler's log. -/
def err_msg : VError → String
  | VError.missingDataError m => m
  | VError.dataRangeError m => m
  | VError.dataFormatError m => m
  | VError.keyError k => k
  | VError.typeError => ""

/-- One logging call of validate_data: info, the structured warning that
carries the missing-data dictionary, a plain warning, or the error line
written by the except handler. -/
inductive LogEntry where
  | info (msg : String)
  | warnMissing (cols : List (String × Nat))
  | warn (msg : String)
  | errorLog (msg : String)
deriving DecidableEq

/-- Lines 49-54: the missing-data check.  Logs, then raises
MissingDataError when any cell is null, after warning with the
per-column null counts. -/
def missing_check (data : Dataset) : Except VError Unit × List LogEntry :=
  if hasAnyNull data then
    (Except.error (VError.missingDataError "Missing data found."),
     [LogEntry.info "Validating for missing data.",
      LogEntry.warnMissing (missing_info data)])
  else
    (Except.ok (), [LogEntry.info "Validating for missing data."])

/-- Lines 56-60: the range check, guarded by membership of "age" in the
columns.  A string cell makes the pandas comparison raise TypeError;
otherwise any negative value raises DataRangeError. -/
def range_check (data : Dataset) : Except VError Unit × List LogEntry :=
  match List.lookup "age" data.cols with
  | none => (Except.ok (), [LogEntry.info "Checking for data range issues."])
  | some cs =>
    if cs.any isStrCell then
      (Except.error VError.typeError,
       [LogEntry.info "Checking for data range issues."])
    else if cs.any cellLtZero then
      (Except.error (VError.dataRangeError "Invalid age values identified."),
       [LogEntry.info "Checking for data range issues.",
        LogEntry.warn "Invalid age values found."])
    else
      (Except.ok (), [LogEntry.info "Checking for data range issues."])

/-- Lines 62-66: the format check.  The access data["age"] is unguarded,
so a dataset without an "age" column raises KeyError here; otherwise any
cell that is not an integer raises DataFormatError. -/
def format_check (data : Dataset) : Except VError Unit × List LogEntry :=
  match List.lookup "age" data.cols with
  | none =>
    (Except.error (VError.keyError "age"),
     [LogEntry.info "Checking for data format issues."])
  | some cs =>
    if cs.all isIntCell then
      (Except.ok (), [LogEntry.info "Checking for data format issues."])
    else
      (Except.error (VError.dataFormatError "Non-integer values found in age column."),
       [LogEntry.info "Checking for data format issues.",
        LogEntry.warn "Non-integer values found in age column."])

/-- The body of the try block (lines 48-66): the three checks in order,
each raised exception short-circuiting the rest. -/
def validate_core (data : Dataset) : Except VError Unit × List LogEntry :=
  match missing_check data with
  | (Except.error e, l1) => (Except.error e, l1)
  | (Except.ok _, l1) =>
    match range_check data with
    | (Except.error e, l2) => (Except.error e, l1 ++ l2)
    | (Except.ok _, l2) =>
      match format_check data with
      | (f, l3) => (f, l1 ++ l2 ++ l3)

/-- The except DataQualityError handler (lines 68-70) logs the failure
and re-raises; host exceptions pass through untouched; success reaches
line 72 and logs that validation passed. -/
def validate_wrap (c : Except VError Unit × List LogEntry) :
    Except VError Unit × List LogEntry :=
  match c with
  | (Except.ok _, l) => (Except.ok (), l ++ [LogEntry.info "Data validation passed."])
  | (Except.error e, l) =>
    if is_data_quality e then
      (Except.error e, l ++ [LogEntry.errorLog ("Data validation failed: " ++ err_msg e)])
    else
      (Except.error e, l)

/-- The outcome of a validate_data call: the exception raised or normal
return, the log lines written, and the dataset as the caller sees it
afterwards. -/
structure VOut where
  result : Except VError Unit
  logs : List LogEntry
  dataOut : Dataset

/-- Lines 46-72: validate_data.  The local variable data is never
reassigned and every operation on it is a pandas read, so the dataset
handed back is the argument itself. -/
def validate_data (data : Dataset) : VOut :=
  let p := validate_wrap (validate_core data)
  ⟨p.1, p.2, data⟩

/-- One entry of the operation_trace list (lines 100-104): a stage name
and a predicate that may raise (error) or answer a boolean. -/
structure Step where
  name : String
  function : Dataset → Except Unit Bool

/-- The for-loop of traceback_data_issues (lines 80-84) inside its try
block: the first predicate answering true returns that stage's name; a
raising predicate propagates out of the loop (lines 85-87 re-raise); an
exhausted loop returns the sentinel (line 90).  The second component
records each completed (stage, answer) examination. -/
def trace_go (data : Dataset) : List Step → Except Unit String × List (String × Bool)
  | [] => (Except.ok "Unknown origin", [])
  | s :: rest =>
    match s.function data with
    | Except.error _ => (Except.error (), [])
    | Except.ok true => (Except.ok s.name, [(s.name, true)])
    | Except.ok false =>
      let t := trace_go data rest
      (t.1, (s.name, false) :: t.2)

/-- The outcome of a traceback_data_issues call: the returned stage name
(or propagated exception), the examinations performed, and the dataset
as the caller sees it afterwards. -/
structure TOut where
  res : Except Unit String
  examined : List (String × Bool)
  dataOut : Dataset

/-- Lines 75-90: traceback_data_issues.  As in validate_data, data is
only read, never reassigned. -/
def traceback_data_issues (data : Dataset) (steps : List Step) : TOut :=
  let p := trace_go data steps
  ⟨p.1, p.2, data⟩

/-- Line 101: lambda d, d.isnull().values.any(). -/
def data_load_check (d : Dataset) : Except Unit Bool :=
  Except.ok (hasAnyNull d)

/-- Line 102: lambda d, (d["age"] < 0).any().  Raises KeyError without
an "age" column and TypeError on a string cell. -/
def transform_a_check (d : Dataset) : Except Unit Bool :=
  match List.lookup "age" d.cols with
  | none => Except.error ()
  | some cs =>
    if cs.any isStrCell then Except.error ()
    else Except.ok (cs.any cellLtZero)

/-- Line 103: lambda d, any(not isinstance(x, int) for x in d["age"]).
Raises KeyError without an "age" column. -/
def transform_b_check (d : Dataset) : Except Unit Bool :=
  match List.lookup "age" d.cols with
  | none => Except.error ()
  | some cs => Except.ok (cs.any fun c => !(isIntCell c))

/-- The stage list of the traceability scenario: the predicates of
operations_trace under the scenario's stage names. -/
def claim_stages : List Step :=
  [⟨"Load", data_load_check⟩,
   ⟨"TransformA", transform_a_check⟩,
   ⟨"TransformB", transform_b_check⟩]

/-- A stage list whose first stage raises and whose second matches. -/
def bad_stages : List Step :=
  [⟨"Bad", fun _ => Except.error ()⟩,
   ⟨"Good", fun _ => Except.ok true⟩]

/-- Age column with a negative value at row index 1 and no nulls. -/
def dNegAge : Dataset :=
  ⟨[("age", [Cell.intV 25, Cell.intV (-3), Cell.intV 40])]⟩

/-- The same multiset of ages with the offender at row index 0. -/
def dNegAge2 : Dataset :=
  ⟨[("age", [Cell.intV (-3), Cell.intV 25, Cell.intV 40])]⟩

/-- Age column with a null at row index 1. -/
def dNullAge : Dataset :=
  ⟨[("age", [Cell.intV 25, Cell.nullV, Cell.intV 40])]⟩

/-- Dataset without an "age" column and without nulls. -/
def dNoAge : Dataset :=
  ⟨[("name", [Cell.strV "bob"])]⟩

/-- Clean dataset: integer ages, none negative, no nulls. -/
def dCleanAge : Dataset :=
  ⟨[("age", [Cell.intV 25, Cell.intV 40])]⟩

/-- Age column holding a float, which fails the isinstance int check. -/
def dFloatAge : Dataset :=
  ⟨[("age", [Cell.intV 25, Cell.floatV 2, Cell.intV 40])]⟩

/- Case-analysis lemmas for validate_data, shared by the claim theorems
   below: each one computes the full outcome of a run along one of the
   control-flow paths of lines 46-72. -/

theorem validate_missing_case (d : Dataset) (h : hasAnyNull d = true) :
    validate_data d =
      ⟨Except.error (VError.missingDataError "Missing data found."),
       [LogEntry.info "Validating for missing data.",
        LogEntry.warnMissing (missing_info d),
        LogEntry.errorLog ("Data validation failed: " ++ "Missing data found.")], d⟩ := by
  simp [validate_data, validate_wrap, validate_core, missing_check, h,
    is_data_quality, err_msg]

theorem validate_range_case (d : Dataset) (cs : List Cell)
    (h0 : hasAnyNull d = false) (h1 : List.lookup "age" d.cols = some cs)
    (h2 : cs.any isStrCell = false) (h3 : cs.any cellLtZero = true) :
    validate_data d =
      ⟨Except.error (VError.dataRangeError "Invalid age values identified."),
       [LogEntry.info "Validating for missing data.",
        LogEntry.info "Checking for data range issues.",
        LogEntry.warn "Invalid age values found.",
        LogEntry.errorLog ("Data validation failed: " ++ "Invalid age values identified.")], d⟩ := by
  simp [validate_data, validate_wrap, validate_core, missing_check, range_check,
    h0, h1, h2, h3, is_data_quality, err_msg]

theorem validate_typeerror_case (d : Dataset) (cs : List Cell)
    (h0 : hasAnyNull d = false) (h1 : List.lookup "age" d.cols = some cs)
    (h2 : cs.any isStrCell = true) :
    validate_data d =
      ⟨Except.error VError.typeError,
       [LogEntry.info "Validating for missing data.",
        LogEntry.info "Checking for data range issues."], d⟩ := by
  simp [validate_data, validate_wrap, validate_core, missing_check, range_check,
    h0, h1, h2, is_data_quality]

theorem validate_keyerror_case (d : Dataset)
    (h0 : hasAnyNull d = false) (h1 : List.lookup "age" d.cols = none) :
    validate_data d =
      ⟨Except.error (VError.keyError "age"),
       [LogEntry.info "Validating for missing data.",
        LogEntry.info "Checking for data range issues.",
        LogEntry.info "Checking for data format issues."], d⟩ := by
  simp [validate_data, validate_wrap, validate_core, missing_check, range_check,
    format_check, h0, h1, is_data_quality]

theorem validate_format_case (d : Dataset) (cs : List Cell)
    (h0 : hasAnyNull d = false) (h1 : List.lookup "age" d.cols = some cs)
    (h2 : cs.any isStrCell = false) (h3 : cs.any cellLtZero = false)
    (h4 : cs.all isIntCell = false) :
    validate_data d =
      ⟨Except.error (VError.dataFormatError "Non-integer values found in age column."),
       [LogEntry.info "Validating for missing data.",
        LogEntry.info "Checking for data range issues.",
        LogEntry.info "Checking for data format issues.",
        LogEntry.warn "Non-integer values found in age column.",
        LogEntry.errorLog ("Data validation failed: " ++ "Non-integer values found in age column.")], d⟩ := by
  simp [validate_data, validate_wrap, validate_core, missing_check, range_check,
    format_check, h0, h1, h2, h3, h4, is_data_quality, err_msg]

theorem validate_ok_case (d : Dataset) (cs : List Cell)
    (h0 : hasAnyNull d = false) (h1 : List.lookup "age" d.cols = some cs)
    (h2 : cs.any isStrCell = false) (h3 : cs.any cellLtZero = false)
    (h4 : cs.all isIntCell = true) :
    validate_data d =
      ⟨Except.ok (),
       [LogEntry.info "Validating for missing data.",
        LogEntry.info "Checking for data range issues.",
        LogEntry.info "Checking for data format issues.",
        LogEntry.info "Data validation passed."], d⟩ := by
  simp [validate_data, validate_wrap, validate_core, missing_check, range_check,
    format_check, h0, h1, h2, h3, h4]

/- Lemmas about the traceback loop, shared by the claim theorems. -/

theorem all_int_imp_no_str (cs : List Cell) (h : cs.all isIntCell = true) :
    cs.any isStrCell = false := by
  induction cs with
  | nil => rfl
  | cons c cs ih =>
    rw [List.all_cons, Bool.and_eq_true] at h
    rw [List.any_cons, ih h.2, Bool.or_false]
    cases c <;> simp_all [isIntCell, isStrCell]

theorem trace_go_all_false (d : Dataset) (steps : List Step)
    (h : ∀ s ∈ steps, s.function d = Except.ok false) :
    trace_go d steps = (Except.ok "Unknown origin", steps.map fun s => (s.name, false)) := by
  induction steps with
  | nil => rfl
  | cons s rest ih =>
    have hs := h s (List.mem_cons_self s rest)
    have ht := ih fun p hp => h p (List.mem_cons_of_mem s hp)
    simp [trace_go, hs, ht]

theorem trace_go_skip (d : Dataset) (pre rest : List Step)
    (h : ∀ p ∈ pre, p.function d = Except.ok false) :
    (trace_go d (pre ++ rest)).1 = (trace_go d rest).1 := by
  induction pre with
  | nil => rfl
  | cons p ps ih =>
    have hp := h p (List.mem_cons_self p ps)
    have ht := ih fun q hq => h q (List.mem_cons_of_mem p hq)
    simp [trace_go, hp, ht]

theorem trace_go_found (d : Dataset) (s : Step) (rest : List Step)
    (h : s.function d = Except.ok true) :
    trace_go d (s :: rest) = (Except.ok s.name, [(s.name, true)]) := by
  simp [trace_go, h]

theorem trace_go_sentinel_all_false (d : Dataset) (steps : List Step)
    (hok : ∀ s ∈ steps, ∃ b, s.function d = Except.ok b)
    (hn : ∀ s ∈ steps, s.name ≠ "Unknown origin")
    (hres : (trace_go d steps).1 = Except.ok "Unknown origin") :
    ∀ s ∈ steps, s.function d = Except.ok false := by
  induction steps with
  | nil => intro s hs; exact absurd hs (List.not_mem_nil s)
  | cons s rest ih =>
    intro t ht
    obtain ⟨b, hb⟩ := hok s (List.mem_cons_self s rest)
    cases b with
    | true =>
      rw [trace_go_found d s rest hb] at hres
      exact absurd (Except.ok.inj hres) (hn s (List.mem_cons_self s rest))
    | false =>
      have hrest : (trace_go d rest).1 = Except.ok "Unknown origin" := by
        simpa [trace_go, hb] using hres
      rcases List.mem_cons.mp ht with rfl | htr
      · exact hb
      · exact ih (fun p hp => hok p (List.mem_cons_of_mem s hp))
          (fun p hp => hn p (List.mem_cons_of_mem s hp)) hrest t htr

/- Claim theorems. -/

/-- C1 counterexample: a dataset with zero null cells, zero out-of-range
values, and zero format mismatches, but no "age" column, makes
validate_data raise KeyError instead of completing with a pass. -/
theorem validate_clean_no_age_raises :
    hasAnyNull dNoAge = false ∧
    (validate_data dNoAge).result = Except.error (VError.keyError "age") ∧
    (validate_data dNoAge).result ≠ Except.ok () := by
  refine ⟨rfl, ?_, ?_⟩
  · rw [validate_keyerror_case dNoAge rfl rfl]
  · rw [validate_keyerror_case dNoAge rfl rfl]
    exact fun h => Except.noConfusion h

/-- C1 (amended): for every dataset that has an "age" column, with zero
null cells, zero out-of-range age values, and zero format mismatches in
the age column, validate_data completes without raising anything and
logs that validation passed. -/
theorem validate_clean_passes_with_age (d : Dataset) (cs : List Cell)
    (h0 : hasAnyNull d = false) (h1 : List.lookup "age" d.cols = some cs)
    (h2 : cs.any cellLtZero = false) (h3 : cs.all isIntCell = true) :
    (validate_data d).result = Except.ok () ∧
    LogEntry.info "Data validation passed." ∈ (validate_data d).logs := by
  rw [validate_ok_case d cs h0 h1 (all_int_imp_no_str cs h3) h2 h3]
  exact ⟨rfl, by simp⟩

/-- C1 witness: the clean dataset with an all-integer, non-negative age
column passes validation. -/
theorem validate_clean_passes_with_age_witness :
    (validate_data dCleanAge).result = Except.ok () ∧
    LogEntry.info "Data validation passed." ∈ (validate_data dCleanAge).logs :=
  validate_clean_passes_with_age dCleanAge [Cell.intV 25, Cell.intV 40]
    (by decide) rfl (by decide) (by decide)

/-- C2 (confirmed): provided every registered predicate evaluates
without raising and no stage carries the sentinel string as its name,
trace returns the "Unknown origin" sentinel iff no stage predicate
evaluates true, and when a stage matches after all earlier stages
answered false, trace returns that earliest matching stage's name. -/
theorem trace_first_match (d : Dataset) (steps : List Step)
    (hok : ∀ s ∈ steps, ∃ b, s.function d = Except.ok b)
    (hn : ∀ s ∈ steps, s.name ≠ "Unknown origin") :
    ((traceback_data_issues d steps).res = Except.ok "Unknown origin" ↔
       ∀ s ∈ steps, s.function d = Except.ok false) ∧
    (∀ pre s post, steps = pre ++ s :: post →
       (∀ p ∈ pre, p.function d = Except.ok false) →
       s.function d = Except.ok true →
       (traceback_data_issues d steps).res = Except.ok s.name) := by
  constructor
  · constructor
    · intro hres
      exact trace_go_sentinel_all_false d steps hok hn hres
    · intro hall
      show (trace_go d steps).1 = Except.ok "Unknown origin"
      rw [trace_go_all_false d steps hall]
  · rintro pre s post rfl hpre hs
    show (trace_go d (pre ++ s :: post)).1 = Except.ok s.name
    rw [trace_go_skip d pre (s :: post) hpre, trace_go_found d s post hs]

/-- C2 witness: with stages Load, TransformA, TransformB carrying the
predicates of operations_trace and a dataset holding a negative age and
no nulls, trace returns TransformA, having examined Load (false) and
TransformA (true) only. -/
theorem trace_first_match_witness :
    (traceback_data_issues dNegAge claim_stages).res = Except.ok "TransformA" ∧
    (traceback_data_issues dNegAge claim_stages).examined =
      [("Load", false), ("TransformA", true)] := by
  constructor
  · exact (trace_first_match dNegAge claim_stages
      (by
        intro s hs
        simp only [claim_stages, List.mem_cons, List.not_mem_nil, or_false] at hs
        rcases hs with rfl | rfl | rfl
        · exact ⟨false, rfl⟩
        · exact ⟨true, rfl⟩
        · exact ⟨false, rfl⟩)
      (by
        intro s hs
        simp only [claim_stages, List.mem_cons, List.not_mem_nil, or_false] at hs
        rcases hs with rfl | rfl | rfl <;> decide)).2
      [⟨"Load", data_load_check⟩] ⟨"TransformA", transform_a_check⟩
      [⟨"TransformB", transform_b_check⟩] rfl
      (by
        intro p hp
        simp only [List.mem_cons, List.not_mem_nil, or_false] at hp
        subst hp
        rfl)
      rfl
  · rfl

/-- C3 counterexample: a dataset with a null cell makes validate_data
raise MissingDataError, a DataQualityError, instead of returning the
finding as result data. -/
theorem validate_throws_finding :
    (validate_data dNullAge).result =
      Except.error (VError.missingDataError "Missing data found.") ∧
    is_data_quality (VError.missingDataError "Missing data found.") = true :=
  ⟨by rw [validate_missing_case dNullAge (by decide)], rfl⟩

/-- C3 (amended): data-quality findings are raised as DataQualityError
exceptions rather than returned as result data: a null cell raises
MissingDataError, a negative age raises DataRangeError, and a non-integer
age raises DataFormatError; a successful run returns no finding. -/
theorem validate_findings_raised (d : Dataset) :
    (hasAnyNull d = true →
       (validate_data d).result =
         Except.error (VError.missingDataError "Missing data found.")) ∧
    (∀ cs, hasAnyNull d = false → List.lookup "age" d.cols = some cs →
       cs.any isStrCell = false → cs.any cellLtZero = true →
       (validate_data d).result =
         Except.error (VError.dataRangeError "Invalid age values identified.")) ∧
    (∀ cs, hasAnyNull d = false → List.lookup "age" d.cols = some cs →
       cs.any isStrCell = false → cs.any cellLtZero = false →
       cs.all isIntCell = false →
       (validate_data d).result =
         Except.error (VError.dataFormatError "Non-integer values found in age column.")) := by
  refine ⟨fun h => ?_, fun cs h0 h1 h2 h3 => ?_, fun cs h0 h1 h2 h3 h4 => ?_⟩
  · rw [validate_missing_case d h]
  · rw [validate_range_case d cs h0 h1 h2 h3]
  · rw [validate_format_case d cs h0 h1 h2 h3 h4]

/-- C3 witness: each of the three finding kinds is raised on its
concrete dataset. -/
theorem validate_findings_raised_witness :
    (validate_data dNullAge).result =
      Except.error (VError.missingDataError "Missing data found.") ∧
    (validate_data dNegAge).result =
      Except.error (VError.dataRangeError "Invalid age values identified.") ∧
    (validate_data dFloatAge).result =
      Except.error (VError.dataFormatError "Non-integer values found in age column.") :=
  ⟨(validate_findings_raised dNullAge).1 (by decide),
   (validate_findings_raised dNegAge).2.1
     [Cell.intV 25, Cell.intV (-3), Cell.intV 40] (by decide) rfl (by decide) (by decide),
   (validate_findings_raised dFloatAge).2.2
     [Cell.intV 25, Cell.floatV 2, Cell.intV 40] (by decide) rfl (by decide) (by decide) (by decide)⟩

/-- C4 counterexample: with a first stage whose predicate raises and a
second stage whose predicate matches, trace propagates the exception and
records nothing: the errored stage is not treated as a non-match and the
remaining stage is never reached. -/
theorem trace_aborts_on_raise :
    (traceback_data_issues dNegAge bad_stages).res = Except.error () ∧
    (traceback_data_issues dNegAge bad_stages).examined = [] ∧
    (traceback_data_issues dNegAge bad_stages).res ≠ Except.ok "Good" :=
  ⟨rfl, rfl, fun h => Except.noConfusion h⟩

/-- C4 (amended): if a stage predicate raises during trace, the
exception propagates out of traceback_data_issues: the whole trace
aborts and no stage name is ever returned, regardless of the remaining
stages. -/
theorem trace_error_propagates (d : Dataset) (pre : List Step) (s : Step)
    (post : List Step)
    (hpre : ∀ p ∈ pre, p.function d = Except.ok false)
    (hs : s.function d = Except.error ()) :
    (traceback_data_issues d (pre ++ s :: post)).res = Except.error () ∧
    ∀ name, (traceback_data_issues d (pre ++ s :: post)).res ≠ Except.ok name := by
  have hmain : (trace_go d (pre ++ s :: post)).1 = Except.error () := by
    rw [trace_go_skip d pre (s :: post) hpre]
    simp [trace_go, hs]
  refine ⟨hmain, fun name h => ?_⟩
  rw [show (traceback_data_issues d (pre ++ s :: post)).res =
        (trace_go d (pre ++ s :: post)).1 from rfl, hmain] at h
  exact Except.noConfusion h

/-- C4 witness: the raising first stage of bad_stages aborts the trace
over the concrete dataset. -/
theorem trace_error_propagates_witness :
    (traceback_data_issues dNegAge bad_stages).res = Except.error () :=
  (trace_error_propagates dNegAge [] ⟨"Bad", fun _ => Except.error ()⟩
    [⟨"Good", fun _ => Except.ok true⟩]
    (fun p hp => absurd hp (List.not_mem_nil p)) rfl).1

/-- C5 (confirmed): for every dataset with at least one null cell, the
missing-data check raises MissingDataError and its warning reports
exactly the columns holding at least one null, each with its null
count. -/
theorem missing_rule_reports_null_columns (d : Dataset)
    (h : hasAnyNull d = true) :
    (validate_data d).result =
      Except.error (VError.missingDataError "Missing data found.") ∧
    LogEntry.warnMissing (missing_info d) ∈ (validate_data d).logs ∧
    ∀ name k, ((name, k) ∈ missing_info d ↔
      ∃ cs, (name, cs) ∈ d.cols ∧ k = nullCount cs ∧ 0 < k) := by
  refine ⟨by rw [validate_missing_case d h], ?_, ?_⟩
  · rw [validate_missing_case d h]
    simp
  · intro name k
    simp only [missing_info, List.mem_filterMap]
    constructor
    · rintro ⟨⟨n, cs⟩, hmem, hf⟩
      by_cases hc : 0 < nullCount cs
      · simp only [hc, if_true, Option.some.injEq, Prod.mk.injEq] at hf
        obtain ⟨rfl, hk⟩ := hf
        exact ⟨cs, hmem, hk.symm, hk ▸ hc⟩
      · simp [hc] at hf
    · rintro ⟨cs, hmem, hk, hpos⟩
      refine ⟨(name, cs), hmem, ?_⟩
      subst hk
      simp [hpos]

/-- C5 witness: the dataset with one null in its age column reports the
single column "age" with null count one. -/
theorem missing_rule_reports_null_columns_witness :
    (validate_data dNullAge).result =
      Except.error (VError.missingDataError "Missing data found.") ∧
    ("age", 1) ∈ missing_info dNullAge :=
  ⟨(missing_rule_reports_null_columns dNullAge (by decide)).1, by decide⟩

/-- C6 (confirmed): the run stops at the first check that finds a
violation and reports exactly that one violation: a dataset with a null
raises MissingDataError without the range or format checks ever running,
and a null-free dataset with a negative age raises DataRangeError
without the format check ever running. -/
theorem failfast_stops_at_first_violation (d : Dataset) :
    (hasAnyNull d = true →
       (validate_data d).result =
         Except.error (VError.missingDataError "Missing data found.") ∧
       LogEntry.info "Checking for data range issues." ∉ (validate_data d).logs ∧
       LogEntry.info "Checking for data format issues." ∉ (validate_data d).logs) ∧
    (∀ cs, hasAnyNull d = false → List.lookup "age" d.cols = some cs →
       cs.any isStrCell = false → cs.any cellLtZero = true →
       (validate_data d).result =
         Except.error (VError.dataRangeError "Invalid age values identified.") ∧
       LogEntry.info "Checking for data format issues." ∉ (validate_data d).logs) := by
  constructor
  · intro h
    rw [validate_missing_case d h]
    refine ⟨rfl, ?_, ?_⟩ <;> simp
  · intro cs h0 h1 h2 h3
    rw [validate_range_case d cs h0 h1 h2 h3]
    refine ⟨rfl, ?_⟩
    simp

/-- C6 witness: the null in the age column of the concrete dataset
reports only MissingData, even though that null would also fail the
downstream format check; the concrete negative age stops before the
format check. -/
theorem failfast_stops_at_first_violation_witness :
    ((validate_data dNullAge).result =
       Except.error (VError.missingDataError "Missing data found.") ∧
     LogEntry.info "Checking for data range issues." ∉ (validate_data dNullAge).logs ∧
     LogEntry.info "Checking for data format issues." ∉ (validate_data dNullAge).logs) ∧
    ((validate_data dNegAge).result =
       Except.error (VError.dataRangeError "Invalid age values identified.") ∧
     LogEntry.info "Checking for data format issues." ∉ (validate_data dNegAge).logs) :=
  ⟨(failfast_stops_at_first_violation dNullAge).1 (by decide),
   (failfast_stops_at_first_violation dNegAge).2
     [Cell.intV 25, Cell.intV (-3), Cell.intV 40] (by decide) rfl (by decide) (by decide)⟩

/-- C7 counterexample: the dataset with age values 25, -3, 40 raises
DataRangeError with the fixed message, and the entire observable outcome
(raised exception and log lines) is identical to that of a dataset whose
offending value sits at a different row index, so the violation names
neither row index 1 nor the value -3. -/
theorem range_error_names_no_rows :
    (validate_data dNegAge).result =
      Except.error (VError.dataRangeError "Invalid age values identified.") ∧
    (validate_data dNegAge).result = (validate_data dNegAge2).result ∧
    (validate_data dNegAge).logs = (validate_data dNegAge2).logs := by
  rw [validate_range_case dNegAge [Cell.intV 25, Cell.intV (-3), Cell.intV 40]
      (by decide) rfl (by decide) (by decide),
    validate_range_case dNegAge2 [Cell.intV (-3), Cell.intV 25, Cell.intV 40]
      (by decide) rfl (by decide) (by decide)]
  exact ⟨rfl, rfl, rfl⟩

/-- C7 (amended): for a null-free dataset whose "age" column exists and
holds no string cell, the range check fails iff some value in the column
is negative, raising DataRangeError with a fixed message that lists no
offending row indices or values. -/
theorem range_check_iff_negative (d : Dataset) (cs : List Cell)
    (h0 : hasAnyNull d = false) (h1 : List.lookup "age" d.cols = some cs)
    (h2 : cs.any isStrCell = false) :
    ((validate_data d).result =
       Except.error (VError.dataRangeError "Invalid age values identified.")) ↔
      cs.any cellLtZero = true := by
  constructor
  · intro hres
    cases h3 : cs.any cellLtZero with
    | true => rfl
    | false =>
      cases h4 : cs.all isIntCell with
      | true =>
        rw [validate_ok_case d cs h0 h1 h2 h3 h4] at hres
        exact absurd hres (fun hh => Except.noConfusion hh)
      | false =>
        rw [validate_format_case d cs h0 h1 h2 h3 h4] at hres
        simp at hres
  · intro h3
    rw [validate_range_case d cs h0 h1 h2 h3]

/-- C7 witness: the concrete dataset with a negative age raises the
range error. -/
theorem range_check_iff_negative_witness :
    (validate_data dNegAge).result =
      Except.error (VError.dataRangeError "Invalid age values identified.") :=
  (range_check_iff_negative dNegAge [Cell.intV 25, Cell.intV (-3), Cell.intV 40]
    (by decide) rfl (by decide)).mpr (by decide)

/-- C8 (confirmed): a null-free dataset without an "age" column makes
validate_data raise KeyError from the unguarded column access of the
format check; KeyError is not a DataQualityError, so the handler never
writes its failure log and the exception surfaces unhandled. -/
theorem no_age_column_keyerror (d : Dataset)
    (h0 : hasAnyNull d = false) (h1 : List.lookup "age" d.cols = none) :
    (validate_data d).result = Except.error (VError.keyError "age") ∧
    is_data_quality (VError.keyError "age") = false ∧
    ∀ m, LogEntry.errorLog m ∉ (validate_data d).logs := by
  rw [validate_keyerror_case d h0 h1]
  refine ⟨rfl, rfl, fun m => ?_⟩
  simp

/-- C8 witness: the dataset without an "age" column raises KeyError,
which the DataQualityError handler does not catch. -/
theorem no_age_column_keyerror_witness :
    (validate_data dNoAge).result = Except.error (VError.keyError "age") ∧
    is_data_quality (VError.keyError "age") = false :=
  ⟨(no_age_column_keyerror dNoAge (by decide) rfl).1,
   (no_age_column_keyerror dNoAge (by decide) rfl).2.1⟩

/-- C9 (confirmed): validate_data is a pure function of its input: a
second call on the dataset handed back by a first call produces exactly
the same outcome, exception, logs and dataset included. -/
theorem validate_idempotent (d : Dataset) :
    validate_data ((validate_data d).dataOut) = validate_data d := rfl

/-- C10 (confirmed): neither validate_data nor traceback_data_issues
mutates the dataset: the dataset each call hands back is the argument
itself. -/
theorem validate_trace_no_mutation (d : Dataset) (steps : List Step) :
    (validate_data d).dataOut = d ∧
    (traceback_data_issues d steps).dataOut = d :=
  ⟨rfl, rfl⟩
